import Mathlib

/-!
Shallow embedding of the frame module of the socketcan-rs repository
(`src/frame.rs`) together with proofs about identifier packing, classic
and FD frame construction, kind conversions, flag mutators and the
canonical hex rendering.

Machine integers (`u32`, `u8`, `usize`) are embedded as `Nat`; the
bit-level operations use `Nat.lor` / `Nat.land`, which agree with the
fixed-width operations because every value involved stays below the
relevant power of two.  Fallible constructors return `Except`, mirroring
`Result`; a Rust panic (out-of-range slice index) is modelled by an
explicit `Panic` error so that it is distinguishable from an ordinary
`None` / `Err` result.
-/

namespace SocketCan

/-- `EFF_FLAG`: if set, indicates 29-bit extended format (bit 31). -/
def EFF_FLAG : Nat := 0x80000000

/-- `RTR_FLAG`: remote transmission request flag (bit 30). -/
def RTR_FLAG : Nat := 0x40000000

/-- `ERR_FLAG`: error flag (bit 29). -/
def ERR_FLAG : Nat := 0x20000000

/-- `SFF_MASK`: valid bits in a standard frame id (11 bits). -/
def SFF_MASK : Nat := 0x000007ff

/-- `EFF_MASK`: valid bits in an extended frame id (29 bits). -/
def EFF_MASK : Nat := 0x1fffffff

/-- `ERR_MASK`: valid bits in an error frame. -/
def ERR_MASK : Nat := 0x1fffffff

/-- `CAN_DATA_LEN_MAX`: maximum payload of a legacy CAN frame. -/
def CAN_DATA_LEN_MAX : Nat := 8

/-- `CANFD_DATA_LEN_MAX`: maximum payload of a CAN FD frame. -/
def CANFD_DATA_LEN_MAX : Nat := 64

/-- `CANFD_BRS`: bit rate switch flag bit of an FD frame. -/
def CANFD_BRS : Nat := 0x01

/-- `CANFD_ESI`: error state indicator flag bit of an FD frame. -/
def CANFD_ESI : Nat := 0x02

/-- `ConstructionError` from `err.rs` (only the two variants raised by
the frame module). -/
inductive ConstructionError where
  | IDTooLarge
  | TooMuchData
deriving DecidableEq, Repr

/-- `init_id_word` from `frame.rs`: builds the composite 32-bit CAN ID
word from the numeric id and the EFF/RTR/ERR flags. -/
def init_id_word (id : Nat) (ext_id rtr err : Bool) :
    Except ConstructionError Nat :=
  if id > EFF_MASK then
    Except.error ConstructionError.IDTooLarge
  else
    let i1 := if ext_id || decide (id > SFF_MASK) then id ||| EFF_FLAG else id
    let i2 := if rtr then i1 ||| RTR_FLAG else i1
    let i3 := if err then i2 ||| ERR_FLAG else i2
    Except.ok i3

/-- Normal form of a successfully packed id word: the numeric id with
the three flag bits ORed on top. -/
def packWord (id : Nat) (e r x : Bool) : Nat :=
  ((id ||| (if e then EFF_FLAG else 0)) ||| (if r then RTR_FLAG else 0)) |||
    (if x then ERR_FLAG else 0)

lemma init_id_word_err {id : Nat} (ext rtr err : Bool) (h : id > EFF_MASK) :
    init_id_word id ext rtr err = Except.error ConstructionError.IDTooLarge := by
  simp [init_id_word, h]

lemma init_id_word_ok {id : Nat} (ext rtr err : Bool) (h : id ≤ EFF_MASK) :
    init_id_word id ext rtr err =
      Except.ok (packWord id (ext || decide (id > SFF_MASK)) rtr err) := by
  have h' : ¬ id > EFF_MASK := not_lt.mpr h
  cases he : (ext || decide (id > SFF_MASK)) <;> cases rtr <;> cases err <;>
    simp [init_id_word, packWord, h', he]

lemma and_two_pow_eq_zero_of_lt {a n : Nat} (h : a < 2 ^ n) :
    a &&& 2 ^ n = 0 := by
  apply Nat.eq_of_testBit_eq
  intro i
  simp only [Nat.testBit_and, Nat.testBit_two_pow, Nat.zero_testBit]
  rcases eq_or_ne n i with hni | hni
  · subst hni
    simp [Nat.testBit_lt_two_pow h]
  · simp [hni]

lemma EFF_FLAG_eq : EFF_FLAG = 2 ^ 31 := by decide

lemma RTR_FLAG_eq : RTR_FLAG = 2 ^ 30 := by decide

lemma ERR_FLAG_eq : ERR_FLAG = 2 ^ 29 := by decide

lemma EFF_MASK_eq : EFF_MASK = 2 ^ 29 - 1 := by decide

lemma EFF_and_MASK : EFF_FLAG &&& EFF_MASK = 0 := by decide

lemma RTR_and_MASK : RTR_FLAG &&& EFF_MASK = 0 := by decide

lemma ERR_and_MASK : ERR_FLAG &&& EFF_MASK = 0 := by decide

lemma EFF_and_EFF : EFF_FLAG &&& EFF_FLAG = EFF_FLAG := by decide

lemma RTR_and_EFF : RTR_FLAG &&& EFF_FLAG = 0 := by decide

lemma ERR_and_EFF : ERR_FLAG &&& EFF_FLAG = 0 := by decide

lemma EFF_and_RTR : EFF_FLAG &&& RTR_FLAG = 0 := by decide

lemma RTR_and_RTR : RTR_FLAG &&& RTR_FLAG = RTR_FLAG := by decide

lemma ERR_and_RTR : ERR_FLAG &&& RTR_FLAG = 0 := by decide

lemma EFF_and_ERR : EFF_FLAG &&& ERR_FLAG = 0 := by decide

lemma RTR_and_ERR : RTR_FLAG &&& ERR_FLAG = 0 := by decide

lemma ERR_and_ERR : ERR_FLAG &&& ERR_FLAG = ERR_FLAG := by decide

/-- Masking a packed word with `EFF_MASK` recovers the numeric id. -/
lemma packWord_and_EFF_MASK {id : Nat} (e r x : Bool) (h : id ≤ EFF_MASK) :
    packWord id e r x &&& EFF_MASK = id := by
  have hid : id < 2 ^ 29 := by
    rw [EFF_MASK_eq] at h; omega
  have hbase : id &&& EFF_MASK = id := by
    rw [EFF_MASK_eq]
    exact Nat.and_pow_two_sub_one_of_lt_two_pow hid
  unfold packWord
  rw [Nat.and_distrib_right, Nat.and_distrib_right, Nat.and_distrib_right, hbase]
  cases e <;> cases r <;> cases x <;>
    simp [EFF_and_MASK, RTR_and_MASK, ERR_and_MASK, EFF_and_EFF, RTR_and_EFF,
      ERR_and_EFF, EFF_and_RTR, RTR_and_RTR, ERR_and_RTR, EFF_and_ERR,
      RTR_and_ERR, ERR_and_ERR]

lemma packWord_and_EFF_FLAG {id : Nat} (e r x : Bool) (h : id ≤ EFF_MASK) :
    packWord id e r x &&& EFF_FLAG = if e then EFF_FLAG else 0 := by
  have hid : id < 2 ^ 31 := by
    rw [EFF_MASK_eq] at h
    have : (2 : Nat) ^ 29 - 1 < 2 ^ 31 := by norm_num
    omega
  have hbase : id &&& EFF_FLAG = 0 := by
    rw [EFF_FLAG_eq]
    exact and_two_pow_eq_zero_of_lt hid
  unfold packWord
  rw [Nat.and_distrib_right, Nat.and_distrib_right, Nat.and_distrib_right, hbase]
  cases e <;> cases r <;> cases x <;>
    simp [EFF_and_MASK, RTR_and_MASK, ERR_and_MASK, EFF_and_EFF, RTR_and_EFF,
      ERR_and_EFF, EFF_and_RTR, RTR_and_RTR, ERR_and_RTR, EFF_and_ERR,
      RTR_and_ERR, ERR_and_ERR]

lemma packWord_and_RTR_FLAG {id : Nat} (e r x : Bool) (h : id ≤ EFF_MASK) :
    packWord id e r x &&& RTR_FLAG = if r then RTR_FLAG else 0 := by
  have hid : id < 2 ^ 30 := by
    rw [EFF_MASK_eq] at h
    have : (2 : Nat) ^ 29 - 1 < 2 ^ 30 := by norm_num
    omega
  have hbase : id &&& RTR_FLAG = 0 := by
    rw [RTR_FLAG_eq]
    exact and_two_pow_eq_zero_of_lt hid
  unfold packWord
  rw [Nat.and_distrib_right, Nat.and_distrib_right, Nat.and_distrib_right, hbase]
  cases e <;> cases r <;> cases x <;>
    simp [EFF_and_MASK, RTR_and_MASK, ERR_and_MASK, EFF_and_EFF, RTR_and_EFF,
      ERR_and_EFF, EFF_and_RTR, RTR_and_RTR, ERR_and_RTR, EFF_and_ERR,
      RTR_and_ERR, ERR_and_ERR]

lemma packWord_and_ERR_FLAG {id : Nat} (e r x : Bool) (h : id ≤ EFF_MASK) :
    packWord id e r x &&& ERR_FLAG = if x then ERR_FLAG else 0 := by
  have hid : id < 2 ^ 29 := by
    rw [EFF_MASK_eq] at h; omega
  have hbase : id &&& ERR_FLAG = 0 := by
    rw [ERR_FLAG_eq]
    exact and_two_pow_eq_zero_of_lt hid
  unfold packWord
  rw [Nat.and_distrib_right, Nat.and_distrib_right, Nat.and_distrib_right, hbase]
  cases e <;> cases r <;> cases x <;>
    simp [EFF_and_MASK, RTR_and_MASK, ERR_and_MASK, EFF_and_EFF, RTR_and_EFF,
      ERR_and_EFF, EFF_and_RTR, RTR_and_RTR, ERR_and_RTR, EFF_and_ERR,
      RTR_and_ERR, ERR_and_ERR]

/-- `slice_to_array::<S>` from `frame.rs`: a zeroed buffer of `S` bytes
with `data` copied into its front (only used with `data.length ≤ S`). -/
def slice_to_array (S : Nat) (data : List Nat) : List Nat :=
  data ++ List.replicate (S - data.length) 0

/-- A Rust panic (only source: out-of-range slice indexing in
`CanFrame::new_remote`). -/
inductive Panic where
  | sliceOutOfRange
deriving DecidableEq, Repr

/-- The classic CAN 2.0 frame `CanFrame(can_frame)`: 32-bit id word,
data length code, fixed 8-byte payload buffer. -/
structure CanFrame where
  can_id : Nat
  can_dlc : Nat
  data : List Nat
deriving DecidableEq, Repr

/-- `CanFrame::init` from `frame.rs`. -/
def CanFrame.init (id : Nat) (data : List Nat) (ext_id rtr err : Bool) :
    Except ConstructionError CanFrame :=
  if data.length > CAN_DATA_LEN_MAX then
    Except.error ConstructionError.TooMuchData
  else
    match init_id_word id ext_id rtr err with
    | Except.error e => Except.error e
    | Except.ok w =>
        Except.ok { can_id := w, can_dlc := data.length,
                    data := slice_to_array 8 data }

/-- `CanFrame::is_extended`. -/
def CanFrame.is_extended (f : CanFrame) : Bool :=
  f.can_id &&& EFF_FLAG != 0

/-- `CanFrame::is_remote_frame`. -/
def CanFrame.is_remote_frame (f : CanFrame) : Bool :=
  f.can_id &&& RTR_FLAG != 0

/-- `CanFrame::dlc`. -/
def CanFrame.dlc (f : CanFrame) : Nat := f.can_dlc

/-- `CanFrame::data`: a slice of the first `can_dlc` buffer bytes. -/
def CanFrame.dataSlice (f : CanFrame) : List Nat :=
  f.data.take f.can_dlc

/-- `Frame::id_word` for `CanFrame`. -/
def CanFrame.id_word (f : CanFrame) : Nat := f.can_id

/-- `Frame::raw_id` (default method) for `CanFrame`. -/
def CanFrame.raw_id (f : CanFrame) : Nat := f.can_id &&& EFF_MASK

/-- `Frame::is_error` (default method) for `CanFrame`. -/
def CanFrame.is_error (f : CanFrame) : Bool :=
  f.can_id &&& ERR_FLAG != 0

/-- `CanFrame::new_remote` from `frame.rs`, after the embedded-hal `Id`
argument has been unwrapped into its raw numeric id and extended flag
(`hal_id_to_raw(id)` and `is_extended(&id)`).  The source slices the
stack array `[0u8; 8]` by `[0..dlc]`, which panics when `dlc > 8`; the
panic is modelled by `Except.error Panic.sliceOutOfRange`. -/
def CanFrame.new_remote (id : Nat) (ext : Bool) (dlc : Nat) :
    Except Panic (Option CanFrame) :=
  if dlc ≤ 8 then
    Except.ok (CanFrame.init id ((List.replicate 8 0).take dlc) ext true false).toOption
  else
    Except.error Panic.sliceOutOfRange

/-- The CAN FD frame `CanFdFrame(canfd_frame)`: 32-bit id word, length,
one flag byte, fixed 64-byte payload buffer. -/
structure CanFdFrame where
  can_id : Nat
  len : Nat
  flags : Nat
  data : List Nat
deriving DecidableEq, Repr

/-- `CanFdFrame::init` from `frame.rs`, verbatim: the length check
compares against `CAN_DATA_LEN_MAX` (the classic maximum, 8), and the
`esi` branch assigns `flags = CANFD_ESI` instead of ORing the bit. -/
def CanFdFrame.init (id : Nat) (data : List Nat) (ext_id err brs esi : Bool) :
    Except ConstructionError CanFdFrame :=
  if data.length > CAN_DATA_LEN_MAX then
    Except.error ConstructionError.TooMuchData
  else
    match init_id_word id ext_id false err with
    | Except.error e => Except.error e
    | Except.ok w =>
        let flags1 : Nat := if brs then 0 ||| CANFD_BRS else 0
        let flags2 : Nat := if esi then CANFD_ESI else flags1
        Except.ok { can_id := w, len := data.length, flags := flags2,
                    data := slice_to_array 64 data }

/-- `CanFdFrame::is_brs`. -/
def CanFdFrame.is_brs (f : CanFdFrame) : Bool :=
  f.flags &&& CANFD_BRS == CANFD_BRS

/-- `CanFdFrame::set_brs`; `!CANFD_BRS` on a `u8` is `0xfe`. -/
def CanFdFrame.set_brs (f : CanFdFrame) (b : Bool) : CanFdFrame :=
  if b then { f with flags := f.flags ||| CANFD_BRS }
  else { f with flags := f.flags &&& 0xfe }

/-- `CanFdFrame::is_esi`. -/
def CanFdFrame.is_esi (f : CanFdFrame) : Bool :=
  f.flags &&& CANFD_ESI == CANFD_ESI

/-- `CanFdFrame::set_esi`; `!CANFD_ESI` on a `u8` is `0xfd`. -/
def CanFdFrame.set_esi (f : CanFdFrame) (b : Bool) : CanFdFrame :=
  if b then { f with flags := f.flags ||| CANFD_ESI }
  else { f with flags := f.flags &&& 0xfd }

/-- `CanFdFrame::is_extended`. -/
def CanFdFrame.is_extended (f : CanFdFrame) : Bool :=
  f.can_id &&& EFF_FLAG != 0

/-- `CanFdFrame::is_remote_frame`: FD frames never report remote. -/
def CanFdFrame.is_remote_frame (_f : CanFdFrame) : Bool := false

/-- `CanFdFrame::dlc`. -/
def CanFdFrame.dlc (f : CanFdFrame) : Nat := f.len

/-- `CanFdFrame::data`: a slice of the first `len` buffer bytes. -/
def CanFdFrame.dataSlice (f : CanFdFrame) : List Nat :=
  f.data.take f.len

/-- `Frame::id_word` for `CanFdFrame`. -/
def CanFdFrame.id_word (f : CanFdFrame) : Nat := f.can_id

/-- `Frame::raw_id` (default method) for `CanFdFrame`. -/
def CanFdFrame.raw_id (f : CanFdFrame) : Nat := f.can_id &&& EFF_MASK

/-- `Frame::is_error` (default method) for `CanFdFrame`. -/
def CanFdFrame.is_error (f : CanFdFrame) : Bool :=
  f.can_id &&& ERR_FLAG != 0

/-- `impl From<CanFrame> for CanFdFrame`: starts from the zeroed default
frame, copies the id word verbatim, the length, and the payload slice
zero-extended to 64 bytes. -/
def CanFdFrame.fromCanFrame (f : CanFrame) : CanFdFrame :=
  { can_id := f.can_id, len := f.can_dlc, flags := 0,
    data := slice_to_array CANFD_DATA_LEN_MAX (CanFrame.dataSlice f) }

/-- `impl TryFrom<CanFdFrame> for CanFrame`: fails when the FD length
exceeds the classic maximum, otherwise rebuilds a classic frame from the
raw id, truncated payload, extended flag and error flag (remote forced
false). -/
def CanFrame.tryFromFd (f : CanFdFrame) : Except ConstructionError CanFrame :=
  if f.len > CAN_DATA_LEN_MAX then
    Except.error ConstructionError.TooMuchData
  else
    CanFrame.init (CanFdFrame.raw_id f) ((CanFdFrame.dataSlice f).take f.len)
      (CanFdFrame.is_extended f) false (CanFdFrame.is_error f)

/-- Upper-case hex digit for a value below 16 (the digit set used by
Rust's `{:X}` formatting). -/
def hexDigit (n : Nat) : Char :=
  if n < 10 then Char.ofNat (48 + n) else Char.ofNat (55 + n)

/-- Digits in base 16, most significant first (empty for 0); the fuel
argument only bounds the recursion depth and `fuel ≥ n` is always enough
since the value shrinks by a factor 16 per step. -/
def hexDigitsAux : Nat → Nat → List Char
  | 0, _ => []
  | fuel + 1, n =>
      if n = 0 then [] else hexDigitsAux fuel (n / 16) ++ [hexDigit (n % 16)]

/-- Digits of `n` in base 16, most significant first (empty for 0). -/
def hexDigits (n : Nat) : List Char :=
  hexDigitsAux n n

/-- Rust `format!` with `{:X}`: upper-case hex without leading zeros,
rendering zero as `0`. -/
def fmtUpperHex (n : Nat) : String :=
  if n = 0 then "0" else String.mk (hexDigits n)

/-- Rust `format!` with `{:02X}`: upper-case hex zero-padded to at
least two digits. -/
def fmtUpperHex02 (b : Nat) : String :=
  let s := fmtUpperHex b
  if s.length < 2 then "0" ++ s else s

/-- `impl fmt::UpperHex for CanFrame`: hex id word, `#`, then the
payload bytes in two-digit upper-case hex joined by the separator.  In
the source both the alternate and the normal branch pick a single space
as separator. -/
def CanFrame.renderUpperHex (f : CanFrame) : String :=
  fmtUpperHex f.can_id ++ "#" ++
    String.intercalate " " ((CanFrame.dataSlice f).map fmtUpperHex02)

/-- The embedded-hal `Id` type: a validated standard (11-bit) or
extended (29-bit) identifier. -/
inductive Id where
  | Standard : Nat → Id
  | Extended : Nat → Id
deriving DecidableEq, Repr

/-- `StandardId::new` from embedded-hal: accepts raw ids up to `0x7FF`,
returning `none` (Rust `None`) beyond. -/
def StandardId.new (raw : Nat) : Option Nat :=
  if raw ≤ 0x7FF then some raw else none

/-- `ExtendedId::new` from embedded-hal: accepts raw ids up to
`0x1FFFFFFF`, returning `none` beyond. -/
def ExtendedId.new (raw : Nat) : Option Nat :=
  if raw ≤ 0x1FFFFFFF then some raw else none

/-- `Frame::hal_id` (default trait method), identical for both frame
kinds since each implements `is_extended` as the EFF bit test on the id
word.  The two `unwrap` calls are modelled by the `Option` result: a
`none` would be a panic.  The `as u16` cast of the standard branch is
the `% 65536` reduction. -/
def halIdOfWord (word : Nat) : Option Id :=
  if word &&& EFF_FLAG != 0 then
    (ExtendedId.new (word &&& EFF_MASK)).map Id.Extended
  else
    (StandardId.new ((word &&& SFF_MASK) % 65536)).map Id.Standard

/-- `Frame::hal_id` for a classic frame. -/
def CanFrame.hal_id (f : CanFrame) : Option Id := halIdOfWord f.can_id

/-- `Frame::hal_id` for an FD frame. -/
def CanFdFrame.hal_id (f : CanFdFrame) : Option Id := halIdOfWord f.can_id

/-- A successful classic construction forces both bounds and determines
the frame completely. -/
lemma CanFrame.init_ok {id : Nat} {data : List Nat} {ext rtr err : Bool}
    {c : CanFrame} (h : CanFrame.init id data ext rtr err = Except.ok c) :
    data.length ≤ CAN_DATA_LEN_MAX ∧ id ≤ EFF_MASK ∧
      c = ⟨packWord id (ext || decide (id > SFF_MASK)) rtr err, data.length,
           slice_to_array 8 data⟩ := by
  by_cases hlen : data.length > CAN_DATA_LEN_MAX
  · rw [CanFrame.init, if_pos hlen] at h
    cases h
  · by_cases hid : id > EFF_MASK
    · rw [CanFrame.init, if_neg hlen, init_id_word_err ext rtr err hid] at h
      cases h
    · rw [CanFrame.init, if_neg hlen,
        init_id_word_ok ext rtr err (not_lt.mp hid)] at h
      refine ⟨not_lt.mp hlen, not_lt.mp hid, ?_⟩
      simpa using h.symm

lemma and_two_pow_cases (a k : Nat) : a &&& 2 ^ k = 0 ∨ a &&& 2 ^ k = 2 ^ k := by
  cases h : a.testBit k
  · left
    apply Nat.eq_of_testBit_eq
    intro i
    simp only [Nat.testBit_and, Nat.testBit_two_pow, Nat.zero_testBit]
    rcases eq_or_ne k i with rfl | hki
    · simp [h]
    · simp [hki]
  · right
    apply Nat.eq_of_testBit_eq
    intro i
    simp only [Nat.testBit_and, Nat.testBit_two_pow]
    rcases eq_or_ne k i with rfl | hki
    · simp [h]
    · simp [hki]

lemma or_one_and_one (a : Nat) : (a ||| 1) &&& 1 = 1 := by
  rw [Nat.and_distrib_right]
  have h1 : (1 : Nat) &&& 1 = 1 := by decide
  rw [h1]
  have := and_two_pow_cases a 0
  rw [show (2 : Nat) ^ 0 = 1 from by norm_num] at this
  rcases this with h | h <;> rw [h] <;> simp

lemma or_one_and_two (a : Nat) : (a ||| 1) &&& 2 = a &&& 2 := by
  rw [Nat.and_distrib_right]
  have h1 : (1 : Nat) &&& 2 = 0 := by decide
  rw [h1]
  simp

lemma or_two_and_two (a : Nat) : (a ||| 2) &&& 2 = 2 := by
  rw [Nat.and_distrib_right]
  have h1 : (2 : Nat) &&& 2 = 2 := by decide
  rw [h1]
  have := and_two_pow_cases a 1
  rw [show (2 : Nat) ^ 1 = 2 from by norm_num] at this
  rcases this with h | h <;> rw [h] <;> simp

lemma or_two_and_one (a : Nat) : (a ||| 2) &&& 1 = a &&& 1 := by
  rw [Nat.and_distrib_right]
  have h1 : (2 : Nat) &&& 1 = 0 := by decide
  rw [h1]
  simp

lemma clear_one_and_one (a : Nat) : (a &&& 0xfe) &&& 1 = 0 := by
  rw [Nat.and_assoc]
  have h1 : (0xfe : Nat) &&& 1 = 0 := by decide
  rw [h1]
  simp

lemma clear_one_and_two (a : Nat) : (a &&& 0xfe) &&& 2 = a &&& 2 := by
  rw [Nat.and_assoc]
  have h1 : (0xfe : Nat) &&& 2 = 2 := by decide
  rw [h1]

lemma clear_two_and_two (a : Nat) : (a &&& 0xfd) &&& 2 = 0 := by
  rw [Nat.and_assoc]
  have h1 : (0xfd : Nat) &&& 2 = 0 := by decide
  rw [h1]
  simp

lemma clear_two_and_one (a : Nat) : (a &&& 0xfd) &&& 1 = a &&& 1 := by
  rw [Nat.and_assoc]
  have h1 : (0xfd : Nat) &&& 1 = 1 := by decide
  rw [h1]

/-- Both hal id constructors accept every value a masked id word can
take, so the `unwrap` calls in `hal_id` can never panic. -/
lemma halIdOfWord_isSome (w : Nat) : (halIdOfWord w).isSome = true := by
  unfold halIdOfWord
  split
  · have h : w &&& EFF_MASK ≤ 0x1FFFFFFF := Nat.and_le_right
    simp [ExtendedId.new, h]
  · have h1 : w &&& SFF_MASK ≤ 0x7FF := Nat.and_le_right
    have h2 : (w &&& SFF_MASK) % 65536 = w &&& SFF_MASK :=
      Nat.mod_eq_of_lt (by omega)
    simp [StandardId.new, h2, h1]

/-- Core of the widen/narrow round trip, stated on the normal form of a
classic frame built by `CanFrame::init` with the remote flag false. -/
lemma roundtrip_core (id : Nat) (data : List Nat) (E x : Bool)
    (hid : id ≤ EFF_MASK) (hlen : data.length ≤ CAN_DATA_LEN_MAX)
    (hE : (E || decide (id > SFF_MASK)) = E) :
    CanFrame.tryFromFd (CanFdFrame.fromCanFrame
        ⟨packWord id E false x, data.length, slice_to_array 8 data⟩) =
      Except.ok ⟨packWord id E false x, data.length, slice_to_array 8 data⟩ := by
  have htake8 : (slice_to_array 8 data).take data.length = data := by
    unfold slice_to_array
    exact List.take_left data _
  have htake64 : (slice_to_array CANFD_DATA_LEN_MAX data).take data.length = data := by
    unfold slice_to_array
    exact List.take_left data _
  have hfd : CanFdFrame.fromCanFrame
      ⟨packWord id E false x, data.length, slice_to_array 8 data⟩ =
      ⟨packWord id E false x, data.length, 0,
        slice_to_array CANFD_DATA_LEN_MAX data⟩ := by
    unfold CanFdFrame.fromCanFrame CanFrame.dataSlice
    dsimp only
    rw [htake8]
  rw [hfd]
  unfold CanFrame.tryFromFd
  rw [if_neg (by dsimp only; omega)]
  have hraw : CanFdFrame.raw_id
      ⟨packWord id E false x, data.length, 0,
        slice_to_array CANFD_DATA_LEN_MAX data⟩ = id := by
    unfold CanFdFrame.raw_id
    dsimp only
    exact packWord_and_EFF_MASK E false x hid
  have hds : (CanFdFrame.dataSlice
      ⟨packWord id E false x, data.length, 0,
        slice_to_array CANFD_DATA_LEN_MAX data⟩).take data.length = data := by
    unfold CanFdFrame.dataSlice
    dsimp only
    rw [htake64, List.take_length]
  have hext : CanFdFrame.is_extended
      ⟨packWord id E false x, data.length, 0,
        slice_to_array CANFD_DATA_LEN_MAX data⟩ = E := by
    unfold CanFdFrame.is_extended
    dsimp only
    rw [packWord_and_EFF_FLAG E false x hid]
    cases E <;> decide
  have herr : CanFdFrame.is_error
      ⟨packWord id E false x, data.length, 0,
        slice_to_array CANFD_DATA_LEN_MAX data⟩ = x := by
    unfold CanFdFrame.is_error
    dsimp only
    rw [packWord_and_ERR_FLAG E false x hid]
    cases x <;> decide
  dsimp only
  rw [hraw, hds, hext, herr]
  rw [CanFrame.init, if_neg (not_lt.mpr hlen), init_id_word_ok E false x hid]
  dsimp only
  rw [hE]

/-- C1.  For every id and flag arguments, FD-frame construction
(`CanFdFrame::init`) fails with `TooMuchData` if and only if the payload
length exceeds 64 bytes.  The source checks the length against the
classic 8-byte ceiling, so a 9-byte payload with a valid id is rejected
even though the claim (and the spec's design notes) require it to be
accepted: evaluating the constructor at the failing input yields
`TooMuchData`. -/
theorem C1_fd_init_rejects_nine_byte_payload :
    CanFdFrame.init 1 (List.replicate 9 0) false false false false =
      Except.error ConstructionError.TooMuchData := rfl

/-- C2.  FD-frame construction with both `brs = true` and `esi = true`
must set both flag bits.  The source assigns (rather than ORs) the ESI
bit, clobbering the BRS bit: at id 1, payload `[0xAA]`, the constructed
frame reports `is_brs = false` and `is_esi = true`, contradicting the
claim. -/
theorem C2_esi_assignment_clobbers_brs :
    (CanFdFrame.init 1 [0xAA] false false true true).map
        (fun f => (CanFdFrame.is_brs f, CanFdFrame.is_esi f)) =
      Except.ok (false, true) := rfl

/-- C3.  Widening a classic frame (built with the remote flag false) to
FD and narrowing back succeeds and returns the very same frame — in
particular the identifier word and the meaningful payload bytes are
preserved. -/
theorem C3_widen_narrow_roundtrip (id : Nat) (data : List Nat)
    (ext err : Bool) (c : CanFrame)
    (hc : CanFrame.init id data ext false err = Except.ok c) :
    CanFrame.tryFromFd (CanFdFrame.fromCanFrame c) = Except.ok c := by
  obtain ⟨hlen, hid, rfl⟩ := CanFrame.init_ok hc
  apply roundtrip_core id data _ err hid hlen
  rw [Bool.or_assoc, Bool.or_self]

/-- Witness for C3 at id `0x123`, payload `[0xDE, 0xAD]`. -/
theorem C3_widen_narrow_roundtrip_witness :
    CanFrame.tryFromFd (CanFdFrame.fromCanFrame
        ⟨0x123, 2, [0xDE, 0xAD, 0, 0, 0, 0, 0, 0]⟩) =
      Except.ok ⟨0x123, 2, [0xDE, 0xAD, 0, 0, 0, 0, 0, 0]⟩ :=
  C3_widen_narrow_roundtrip 0x123 [0xDE, 0xAD] false false
    ⟨0x123, 2, [0xDE, 0xAD, 0, 0, 0, 0, 0, 0]⟩ rfl

/-- C4.  For every numeric id strictly between the standard ceiling and
the extended ceiling, identifier packing succeeds and the resulting word
has the extended flag bit set, regardless of the caller's extended
argument (and of the remote/error arguments). -/
theorem C4_range_overflow_forces_extended (id : Nat) (ext rtr err : Bool)
    (h1 : SFF_MASK < id) (h2 : id ≤ EFF_MASK) :
    ∃ w, init_id_word id ext rtr err = Except.ok w ∧
      w &&& EFF_FLAG = EFF_FLAG := by
  have hd : (ext || decide (id > SFF_MASK)) = true := by simp [h1]
  refine ⟨packWord id (ext || decide (id > SFF_MASK)) rtr err,
    init_id_word_ok ext rtr err h2, ?_⟩
  rw [packWord_and_EFF_FLAG _ _ _ h2, hd]
  simp

/-- Witness for C4 at id `0x800` with `ext = false`. -/
theorem C4_range_overflow_forces_extended_witness :
    ∃ w, init_id_word 0x800 false false false = Except.ok w ∧
      w &&& EFF_FLAG = EFF_FLAG :=
  C4_range_overflow_forces_extended 0x800 false false false
    (by decide) (by decide)

/-- C5.  Identifier packing fails (with `IDTooLarge`, its only failure)
exactly when the numeric id exceeds `EFF_MASK`; on success the low 29
bits of the produced word are exactly the requested id, so the id is
never silently truncated, and no word is produced on failure. -/
theorem C5_pack_id_too_large_iff (id : Nat) (ext rtr err : Bool) :
    (EFF_MASK < id →
      init_id_word id ext rtr err = Except.error ConstructionError.IDTooLarge) ∧
    (id ≤ EFF_MASK →
      ∃ w, init_id_word id ext rtr err = Except.ok w ∧ w &&& EFF_MASK = id) := by
  constructor
  · intro h
    exact init_id_word_err ext rtr err h
  · intro h
    exact ⟨packWord id (ext || decide (id > SFF_MASK)) rtr err,
      init_id_word_ok ext rtr err h, packWord_and_EFF_MASK _ _ _ h⟩

/-- Witness for C5: failure just above the ceiling, success with the id
recoverable below it. -/
theorem C5_pack_id_too_large_iff_witness :
    init_id_word 0x20000000 false false false =
        Except.error ConstructionError.IDTooLarge ∧
      ∃ w, init_id_word 0x123 true true true = Except.ok w ∧
        w &&& EFF_MASK = 0x123 :=
  ⟨(C5_pack_id_too_large_iff 0x20000000 false false false).1 (by decide),
    (C5_pack_id_too_large_iff 0x123 true true true).2 (by decide)⟩

/-- C6 counterexample.  Widening the remote classic frame built from id
`0x7` with the remote flag leaves the remote-transmission-request bit
set in the FD frame's identifier word (the claim requires it to be
clear). -/
theorem C6_widen_keeps_rtr_counterexample :
    (CanFrame.init 0x7 [] false true false).map
        (fun c => (CanFdFrame.fromCanFrame c).can_id &&& RTR_FLAG) =
      Except.ok RTR_FLAG ∧ RTR_FLAG ≠ 0 :=
  ⟨rfl, by decide⟩

/-- C6 (amended).  Classic-to-FD widening copies the identifier word
verbatim — numeric id, extended flag and error flag are preserved, and
so is the remote-transmission-request bit (it is not cleared) — while
the FD frame's `is_remote_frame` accessor reports false regardless. -/
theorem C6_widen_preserves_word (c : CanFrame) :
    (CanFdFrame.fromCanFrame c).can_id = c.can_id ∧
    CanFdFrame.raw_id (CanFdFrame.fromCanFrame c) = CanFrame.raw_id c ∧
    CanFdFrame.is_extended (CanFdFrame.fromCanFrame c) = CanFrame.is_extended c ∧
    CanFdFrame.is_error (CanFdFrame.fromCanFrame c) = CanFrame.is_error c ∧
    CanFdFrame.is_remote_frame (CanFdFrame.fromCanFrame c) = false :=
  ⟨rfl, rfl, rfl, rfl, rfl⟩

/-- C7.  `CanFrame::new_remote` behaves as claimed for `dlc ≤ 8` (remote
flag set, length `dlc`, all-zero payload), but for `dlc = 9` the source
slices the 8-byte stack array out of range and panics instead of
returning `None`. -/
theorem C7_new_remote_panics_above_eight :
    (CanFrame.new_remote 0x7 false 3).map
        (Option.map (fun c => (CanFrame.is_remote_frame c, CanFrame.dlc c,
          CanFrame.dataSlice c))) = Except.ok (some (true, 3, [0, 0, 0])) ∧
      CanFrame.new_remote 0x7 false 9 = Except.error Panic.sliceOutOfRange :=
  ⟨rfl, rfl⟩

/-- C8 counterexample.  The classic frame with id `0x123` and payload
`[0xDE, 0xAD]` does not render as `123#DEAD`: the payload bytes are
joined with a space separator. -/
theorem C8_render_counterexample :
    (CanFrame.init 0x123 [0xDE, 0xAD] false false false).map
        CanFrame.renderUpperHex ≠ Except.ok "123#DEAD" := by
  intro h
  have h1 : (CanFrame.init 0x123 [0xDE, 0xAD] false false false).map
      CanFrame.renderUpperHex = Except.ok "123#DE AD" := rfl
  rw [h1] at h
  exact absurd (Except.ok.inj h) (by decide)

/-- C8 (amended).  The classic frame with id `0x123` and payload
`[0xDE, 0xAD]` renders as `123#DE AD`: hex id, `#`, then the payload
bytes as two-digit upper-case hex separated by single spaces. -/
theorem C8_render_space_separated :
    (CanFrame.init 0x123 [0xDE, 0xAD] false false false).map
        CanFrame.renderUpperHex = Except.ok "123#DE AD" := rfl

/-- C9.  `set_brs` and `set_esi` are independent: each sets or clears
exactly its own flag bit, leaves the other flag unchanged, and neither
touches the id word, the length or the payload buffer. -/
theorem C9_flag_mutators_independent (f : CanFdFrame) (b : Bool) :
    (CanFdFrame.set_brs f b).is_brs = b ∧
    (CanFdFrame.set_brs f b).is_esi = f.is_esi ∧
    (CanFdFrame.set_esi f b).is_esi = b ∧
    (CanFdFrame.set_esi f b).is_brs = f.is_brs ∧
    (CanFdFrame.set_brs f b).can_id = f.can_id ∧
    (CanFdFrame.set_brs f b).len = f.len ∧
    (CanFdFrame.set_brs f b).data = f.data ∧
    (CanFdFrame.set_esi f b).can_id = f.can_id ∧
    (CanFdFrame.set_esi f b).len = f.len ∧
    (CanFdFrame.set_esi f b).data = f.data := by
  cases b
  case false =>
    refine ⟨?_, ?_, ?_, ?_, rfl, rfl, rfl, rfl, rfl, rfl⟩
    · simp [CanFdFrame.set_brs, CanFdFrame.is_brs, CANFD_BRS, clear_one_and_one]
    · simp [CanFdFrame.set_brs, CanFdFrame.is_esi, CANFD_ESI, CANFD_BRS,
        clear_one_and_two]
    · simp [CanFdFrame.set_esi, CanFdFrame.is_esi, CANFD_ESI, clear_two_and_two]
    · simp [CanFdFrame.set_esi, CanFdFrame.is_brs, CANFD_BRS, CANFD_ESI,
        clear_two_and_one]
  case true =>
    refine ⟨?_, ?_, ?_, ?_, rfl, rfl, rfl, rfl, rfl, rfl⟩
    · simp [CanFdFrame.set_brs, CanFdFrame.is_brs, CANFD_BRS, or_one_and_one]
    · simp [CanFdFrame.set_brs, CanFdFrame.is_esi, CANFD_ESI, CANFD_BRS,
        or_one_and_two]
    · simp [CanFdFrame.set_esi, CanFdFrame.is_esi, CANFD_ESI, or_two_and_two]
    · simp [CanFdFrame.set_esi, CanFdFrame.is_brs, CANFD_BRS, CANFD_ESI,
        or_two_and_one]

/-- C10.  The semantic-id accessor is total for every classic and FD
frame: the masked word always fits the corresponding hal id constructor,
so the internal `unwrap` calls can never panic. -/
theorem C10_hal_id_never_panics (f : CanFrame) (g : CanFdFrame) :
    (CanFrame.hal_id f).isSome = true ∧ (CanFdFrame.hal_id g).isSome = true :=
  ⟨halIdOfWord_isSome f.can_id, halIdOfWord_isSome g.can_id⟩

end SocketCan
